import Mathlib

set_option maxHeartbeats 1000000

/-!
Shallow embedding of `src/src/python/cerebras_analyzer.py`.

Paths are modelled as lists of path segments (the tuple `pathlib.PurePath.parts`,
omitting the filesystem-root marker).  The filesystem traversal performed by
`root.rglob("*")` is modelled as an input list of entries, each holding its path
relative to the traversal root, whether it is a regular file, and the outcome of
reading it as UTF-8 text (`none` models a raised decode error).  The network and
the git subprocess are modelled as oracles carried in an `Env` record.
-/

/-- Python `str.lower`, applied character by character. -/
def strLower (s : String) : String :=
  String.mk (s.data.map Char.toLower)

/-- Index of the last occurrence of a dot in a list of characters, as in
Python `name.rfind(".")` (returning `none` instead of `-1`). -/
def rfindDot : List Char → Option Nat
  | [] => none
  | c :: rest =>
    match rfindDot rest with
    | some i => some (i + 1)
    | none => if c == '.' then some 0 else none

/-- Python `pathlib.PurePath.suffix` of a final path component: the substring
from the last dot onward, provided that dot is neither the first nor the last
character; otherwise the empty string. -/
def pySuffix (name : String) : String :=
  let cs := name.data
  match rfindDot cs with
  | none => ""
  | some i => if 0 < i ∧ i + 1 < cs.length then String.mk (cs.drop i) else ""

/-- `SOURCE_EXTS` from the source: the fixed allow-list of extensions. -/
def SOURCE_EXTS : List String :=
  [".js", ".ts", ".jsx", ".tsx", ".py", ".java", ".go", ".c", ".cpp"]

/-- `skip_dirs` from `collect_source_files`: the fixed exclusion set. -/
def skip_dirs : List String :=
  ["node_modules", ".git", "dist", "build", "venv", "__pycache__"]

/-- One entry yielded by `root.rglob("*")`: its path relative to the traversal
root (a nonempty segment list for anything strictly under the root), whether it
is a regular file, and the text obtained by `read_text` (`none` models a decode
failure raised on reading). -/
structure FsEntry where
  rel : List String
  isFile : Bool
  content : Option String
deriving DecidableEq

/-- A candidate file as appended by `collect_source_files`: its full path
segments and its readable content (`none` models a decode failure). -/
structure SrcFile where
  parts : List String
  content : Option String
deriving DecidableEq

/-- `collect_source_files(root)`: keep the traversal entries none of whose full
path segments is in `skip_dirs`, that are regular files, and whose lowercased
suffix is in `SOURCE_EXTS`; return them as full paths, in traversal order. -/
def collect_source_files (root : List String) (entries : List FsEntry) : List SrcFile :=
  (entries.filter fun e =>
    let parts := root ++ e.rel
    (!(skip_dirs.any fun skip => parts.contains skip)) && e.isFile &&
      SOURCE_EXTS.contains (strLower (pySuffix (parts.getLastD "")))).map
    fun e => ⟨root ++ e.rel, e.content⟩

/-- A single-quote character, used inside the instruction header text. -/
def apos : String := String.mk [Char.ofNat 39]

/-- The fixed instruction header (`intro` in `build_prompt`) naming the audit
task, the repository URL and branch, and the strict JSON output schema. -/
def introText (repo_url branch : String) : String :=
  "You are an expert security auditor and software engineer. Perform a deep audit of the following repository:\n- URL: "
    ++ repo_url ++ "\n- Branch: " ++ branch ++
    "\nIdentify vulnerabilities, bugs, and performance issues. CRITICAL: Return the answer in STRICT JSON format with an "
    ++ apos ++ "issues" ++ apos ++ " array.\nSchema: \x7b\"issues\": [\x7b\"file\":\"path/to/file\",\"line\":42,\"type\":\"security|bug|quality\",\"msg\":\"...\",\"severity\":\"CRITICAL|HIGH|MEDIUM|LOW\"\x7d]\x7d\n"

/-- The header actually used: when a caller-supplied prefix string is present
and nonempty (Python truthiness of `if prefix:`), it is prepended to the
instruction header, separated by a newline. -/
def headerOf (pre : Option String) (repo_url branch : String) : String :=
  match pre with
  | some p => if p = "" then introText repo_url branch else p ++ "\n" ++ introText repo_url branch
  | none => introText repo_url branch

/-- `max_chars` from `build_prompt`: the fixed body budget. -/
def max_chars : Nat := 15000

/-- `f.relative_to(f.parent.parent)`: the last two segments of the path (the
whole path when it has fewer than two segments). -/
def relGrandparent (parts : List String) : List String :=
  if 2 ≤ parts.length then parts.drop (parts.length - 2) else parts

/-- Rendering of a path in an f-string: segments joined by `/`. -/
def renderPath (parts : List String) : String :=
  String.intercalate "/" parts

/-- `content[:2000]`: the first 2000 characters of the file content. -/
def snippetOf (content : String) : String :=
  String.mk (content.data.take 2000)

/-- The labeled section `part` built for one readable file. -/
def filePart (f : SrcFile) (content : String) : String :=
  "\n--- " ++ renderPath (relGrandparent f.parts) ++ " ---\n" ++ snippetOf content ++ "\n"

/-- The accumulation loop of `build_prompt`: skip unreadable files
(`except Exception: continue`), and stop (`break`) as soon as appending the
next labeled section would push the body over `max_chars`. -/
def bodyLoop : List SrcFile → String → String
  | [], body => body
  | f :: rest, body =>
    match f.content with
    | none => bodyLoop rest body
    | some c =>
      let part := filePart f c
      if max_chars < body.length + part.length then body
      else bodyLoop rest (body ++ part)

/-- The accumulated body of `build_prompt`, starting from the empty string. -/
def promptBody (files : List SrcFile) : String :=
  bodyLoop files ""

/-- `build_prompt`: header (with optional prefix) and accumulated body,
separated by a newline. -/
def build_prompt (files : List SrcFile) (repo_url branch : String) (pre : Option String) : String :=
  headerOf pre repo_url branch ++ "\n" ++ promptBody files

/-- A path relative to the clone root, as the specification describes the
section label of `build_prompt` (for comparison with `relGrandparent`). -/
def specRelToRoot (root parts : List String) : List String :=
  parts.drop root.length

/-- A Python exception, as observed by `except Exception as exc`: its type name
(`type(exc).__name__`) and its message (`str(exc)`). -/
structure PyExc where
  ty : String
  msg : String
deriving DecidableEq

/-- One hexadecimal digit, lowercase, as produced by Python `"%04x"`. -/
def hexDigit (n : Nat) : Char :=
  if n < 10 then Char.ofNat (48 + n) else Char.ofNat (87 + n)

/-- A `\uXXXX` escape for a code unit below 0x10000. -/
def u4 (n : Nat) : String :=
  String.mk ['\\', 'u', hexDigit (n / 4096 % 16), hexDigit (n / 256 % 16),
    hexDigit (n / 16 % 16), hexDigit (n % 16)]

/-- Escaping of one character by `json.dumps` with its default
`ensure_ascii=True`: backslash, quote and the short control escapes, `\uXXXX`
for other characters outside 0x20..0x7e, with surrogate pairs above 0xffff. -/
def escChar (c : Char) : String :=
  if c = '\\' then "\\\\"
  else if c = '"' then "\\\""
  else if c = Char.ofNat 8 then "\\b"
  else if c = Char.ofNat 12 then "\\f"
  else if c = '\n' then "\\n"
  else if c = '\r' then "\\r"
  else if c = '\t' then "\\t"
  else if c.toNat < 32 ∨ 126 < c.toNat then
    if c.toNat < 65536 then u4 c.toNat
    else u4 (55296 + (c.toNat - 65536) / 1024) ++ u4 (56320 + (c.toNat - 65536) % 1024)
  else String.mk [c]

/-- The `json.dumps` escaping applied across a whole string. -/
def escString : List Char → String
  | [] => ""
  | c :: rest => escChar c ++ escString rest

/-- `json.dumps(\x7b"error": msg\x7d)`: the single-line JSON error envelope. -/
def pyJsonDumpsError (msg : String) : String :=
  "\x7b\"error\": \"" ++ escString msg.data ++ "\"\x7d"

/-- The error envelope printed by the `except` block of `analyze_repo` for a
caught exception. -/
def errEnvelope (e : PyExc) : String :=
  pyJsonDumpsError ("ERROR in Python analyzer: " ++ e.ty ++ ": " ++ e.msg)

/-- The oracles a run of `analyze_repo` interacts with: the working directory,
the hex of the `uuid4` drawn for this run, the outcome of
`git.Repo.clone_from` (`some s` models an exception whose `str` is `s`), the
traversal of the fresh clone, and the composite outcome of the completion call
as a function of the prompt sent (`Except.error` models any exception raised by
the POST, `raise_for_status`, the JSON decode, or the key extraction;
`Except.ok` carries the extracted message content). -/
structure Env where
  cwd : List String
  uuidHex : String
  cloneExc : Option String
  entries : List FsEntry
  apiResult : String → Except PyExc String

/-- The scratch directory `base_tmp / f"cerebra-\x7buuid4().hex\x7d"` of a run. -/
def tmpDirOf (env : Env) : List String :=
  env.cwd ++ ["temp_clones", "cerebra-" ++ env.uuidHex]

/-- `shallow_clone`: create the scratch directory, attempt the clone; on any
clone exception remove the directory and raise
`RuntimeError(f"Git clone failed: \x7bexc\x7d")`; on success return the path.
The second component records whether the scratch directory still exists when
`shallow_clone` returns or raises. -/
def shallow_clone (env : Env) : Except PyExc (List String) × Bool :=
  match env.cloneExc with
  | some exc => (Except.error ⟨"RuntimeError", "Git clone failed: " ++ exc⟩, false)
  | none => (Except.ok (tmpDirOf env), true)

/-- Observable trace of a run of `analyze_repo`: the value of the local
`repo_path`, whether the scratch directory exists, the lines printed to stdout,
the prompt the completion endpoint was called with (if the call was issued),
and the exception currently propagating (if any). -/
structure RunTrace where
  repo_path : Option (List String)
  tmpExists : Bool
  stdout : List String
  apiCalledWith : Option String
  raised : Option PyExc

/-- The `try` block of `analyze_repo`: clone, collect, build the prompt, call
the completion endpoint, print the extracted content on success. -/
def tryBody (env : Env) (repo_url branch : String) (pre : Option String) : RunTrace :=
  match shallow_clone env with
  | (Except.error e, ex) =>
    { repo_path := none, tmpExists := ex, stdout := [], apiCalledWith := none,
      raised := some e }
  | (Except.ok rp, ex) =>
    let files := collect_source_files rp env.entries
    let prompt := build_prompt files repo_url branch pre
    match env.apiResult prompt with
    | Except.error e =>
      { repo_path := some rp, tmpExists := ex, stdout := [], apiCalledWith := some prompt,
        raised := some e }
    | Except.ok content =>
      { repo_path := some rp, tmpExists := ex, stdout := [content],
        apiCalledWith := some prompt, raised := none }

/-- `analyze_repo`: run the `try` block; on any exception print the JSON error
envelope and swallow the exception; in the `finally` block, when `repo_path`
is set and the directory exists, remove it (errors ignored). -/
def analyze_repo (env : Env) (repo_url branch : String) (pre : Option String) : RunTrace :=
  let t := tryBody env repo_url branch pre
  let t1 :=
    match t.raised with
    | none => t
    | some e => { t with stdout := t.stdout ++ [errEnvelope e], raised := none }
  match t1.repo_path with
  | some _ => if t1.tmpExists then { t1 with tmpExists := false } else t1
  | none => t1

/-- The prompt the pipeline builds for a run whose clone succeeded. -/
def pipelinePrompt (env : Env) (repo_url branch : String) (pre : Option String) : String :=
  build_prompt (collect_source_files (tmpDirOf env) env.entries) repo_url branch pre

/-! ### Helper lemmas -/

theorem length_mk (l : List Char) : (String.mk l).length = l.length := rfl

theorem bodyLoop_length_le (files : List SrcFile) (body : String)
    (h : body.length ≤ max_chars) : (bodyLoop files body).length ≤ max_chars := by
  induction files generalizing body with
  | nil => simpa [bodyLoop] using h
  | cons f rest ih =>
    cases hf : f.content with
    | none => simpa [bodyLoop, hf] using ih body h
    | some c =>
      by_cases hb : max_chars < body.length + (filePart f c).length
      · simpa [bodyLoop, hf, hb] using h
      · have h2 : (body ++ filePart f c).length ≤ max_chars := by
          rw [String.length_append]; omega
        simpa [bodyLoop, hf, hb] using ih _ h2

theorem bodyLoop_skips_unreadable (xs ys : List SrcFile) (f : SrcFile)
    (hf : f.content = none) (body : String) :
    bodyLoop (xs ++ f :: ys) body = bodyLoop (xs ++ ys) body := by
  induction xs generalizing body with
  | nil => simp [bodyLoop, hf]
  | cons g xs ih =>
    cases hg : g.content with
    | none =>
      simp only [List.cons_append, bodyLoop, hg]
      exact ih body
    | some c =>
      by_cases hb : max_chars < body.length + (filePart g c).length
      · simp [bodyLoop, hg, hb]
      · simp only [List.cons_append, bodyLoop, hg]
        simp only [hb, if_false, if_neg]
        exact ih _

/-! ### Claims about the prompt builder -/

/-- Claim C3: the accumulated body built by `build_prompt` never exceeds the
fixed 15000-character budget, and a file whose formatted section would push the
body over the budget is omitted entirely: accumulation stops at that point. -/
theorem build_prompt_body_bounded (files : List SrcFile) (f : SrcFile) (c : String)
    (rest : List SrcFile) (body : String) (hc : f.content = some c)
    (hover : max_chars < body.length + (filePart f c).length) :
    (promptBody files).length ≤ max_chars ∧ bodyLoop (f :: rest) body = body := by
  constructor
  · exact bodyLoop_length_le files "" (by simp [max_chars])
  · simp [bodyLoop, hc, hover]

theorem build_prompt_body_bounded_witness :
    (⟨["r", "a.py"], some "x"⟩ : SrcFile).content = some "x" ∧
    max_chars < (String.mk (List.replicate 15001 'a')).length +
      (filePart ⟨["r", "a.py"], some "x"⟩ "x").length ∧
    ((promptBody [(⟨["r", "a.py"], some "x"⟩ : SrcFile)]).length ≤ max_chars ∧
      bodyLoop [(⟨["r", "a.py"], some "x"⟩ : SrcFile)] (String.mk (List.replicate 15001 'a')) =
        String.mk (List.replicate 15001 'a')) := by
  have hlen : (String.mk (List.replicate 15001 'a')).length = 15001 := by
    rw [length_mk, List.length_replicate]
  have hover : max_chars < (String.mk (List.replicate 15001 'a')).length +
      (filePart ⟨["r", "a.py"], some "x"⟩ "x").length := by
    rw [hlen, max_chars]; omega
  exact ⟨rfl, hover,
    build_prompt_body_bounded [⟨["r", "a.py"], some "x"⟩] ⟨["r", "a.py"], some "x"⟩ "x" []
      (String.mk (List.replicate 15001 'a')) rfl hover⟩

/-- Claim C8: a file whose read fails is skipped silently; the prompt equals
the prompt for the same list with that file removed. -/
theorem build_prompt_skips_unreadable (xs ys : List SrcFile) (f : SrcFile)
    (hf : f.content = none) (repo_url branch : String) (pre : Option String) :
    build_prompt (xs ++ f :: ys) repo_url branch pre =
      build_prompt (xs ++ ys) repo_url branch pre := by
  unfold build_prompt promptBody
  rw [bodyLoop_skips_unreadable xs ys f hf]

theorem build_prompt_skips_unreadable_witness :
    (⟨["r", "b.py"], none⟩ : SrcFile).content = none ∧
    build_prompt ([⟨["r", "a.py"], some "x"⟩] ++ (⟨["r", "b.py"], none⟩ : SrcFile) ::
        [⟨["r", "c.py"], some "y"⟩]) "U" "B" none =
      build_prompt ([⟨["r", "a.py"], some "x"⟩] ++ [⟨["r", "c.py"], some "y"⟩]) "U" "B" none :=
  ⟨rfl, build_prompt_skips_unreadable [⟨["r", "a.py"], some "x"⟩] [⟨["r", "c.py"], some "y"⟩]
    ⟨["r", "b.py"], none⟩ rfl "U" "B" none⟩

/-! ### Claims about the collector -/

/-- Claim C5: `collect_source_files` returns exactly the traversal entries that
are regular files, whose extension (compared case-insensitively) is in the
fixed allow-list, and none of whose path segments equals a name in the fixed
exclusion set; exclusion matches whole path segments by equality. -/
theorem collect_source_files_characterization (root : List String) (entries : List FsEntry)
    (f : SrcFile) :
    f ∈ collect_source_files root entries ↔
      ∃ e ∈ entries, f = ⟨root ++ e.rel, e.content⟩ ∧ e.isFile = true ∧
        strLower (pySuffix ((root ++ e.rel).getLastD "")) ∈ SOURCE_EXTS ∧
        ∀ seg ∈ root ++ e.rel, seg ∉ skip_dirs := by
  simp only [collect_source_files, List.mem_map, List.mem_filter, Bool.and_eq_true,
    Bool.not_eq_true', List.any_eq_false, List.contains_eq_any_beq, List.any_beq,
    List.elem_eq_mem, decide_eq_true_iff]
  constructor
  · rintro ⟨e, ⟨he, ⟨hskip, hfile⟩, hext⟩, hf⟩
    exact ⟨e, he, hf.symm, hfile, hext, fun seg hseg hmem => hskip seg hmem hseg⟩
  · rintro ⟨e, he, hf, hfile, hext, hskip⟩
    exact ⟨e, ⟨he, ⟨fun x hx hmem => hskip x hmem hx, hfile⟩, hext⟩, hf.symm⟩

theorem collect_source_files_characterization_witness :
    (⟨["h", "u", "temp_clones", "c1", "a.py"], some "x"⟩ : SrcFile) ∈
      collect_source_files ["h", "u", "temp_clones", "c1"] [⟨["a.py"], true, some "x"⟩] :=
  (collect_source_files_characterization ["h", "u", "temp_clones", "c1"]
      [⟨["a.py"], true, some "x"⟩] ⟨["h", "u", "temp_clones", "c1", "a.py"], some "x"⟩).mpr
    ⟨⟨["a.py"], true, some "x"⟩, by decide, rfl, rfl, by decide, by decide⟩

/-- Claim C10: the exclusion check applies to every segment of the full path,
segments at or above the clone root included; a root whose own path contains an
excluded name makes the collector return the empty list. -/
theorem collect_source_files_empty_of_root_excluded (root : List String)
    (entries : List FsEntry) (seg : String) (hseg : seg ∈ root) (hskip : seg ∈ skip_dirs) :
    collect_source_files root entries = [] := by
  unfold collect_source_files
  rw [List.map_eq_nil_iff, List.filter_eq_nil_iff]
  intro e he hp
  simp only [Bool.and_eq_true, Bool.not_eq_true', List.any_eq_false, List.contains_eq_any_beq,
    List.any_beq, List.elem_eq_mem, decide_eq_true_iff] at hp
  exact hp.1.1 seg hskip (List.mem_append_left _ hseg)

theorem collect_source_files_empty_of_root_excluded_witness :
    ("build" : String) ∈ ["home", "user", "build", "temp_clones", "c1"] ∧
    ("build" : String) ∈ skip_dirs ∧
    collect_source_files ["home", "user", "build", "temp_clones", "c1"]
      [⟨["a.py"], true, some "x"⟩] = [] :=
  ⟨by decide, by decide,
    collect_source_files_empty_of_root_excluded ["home", "user", "build", "temp_clones", "c1"]
      [⟨["a.py"], true, some "x"⟩] "build" (by decide) (by decide)⟩

theorem hexDigit_ne_nl (n : Nat) (h : n < 16) : hexDigit n ≠ '\n' := by
  unfold hexDigit
  interval_cases n <;> decide

theorem nl_not_mem_u4 (n : Nat) : '\n' ∉ (u4 n).data := by
  intro h
  simp only [u4, List.mem_cons, List.not_mem_nil, or_false] at h
  rcases h with h | h | h | h | h | h
  · exact absurd h (by decide)
  · exact absurd h (by decide)
  · exact hexDigit_ne_nl _ (Nat.mod_lt _ (by decide)) h.symm
  · exact hexDigit_ne_nl _ (Nat.mod_lt _ (by decide)) h.symm
  · exact hexDigit_ne_nl _ (Nat.mod_lt _ (by decide)) h.symm
  · exact hexDigit_ne_nl _ (Nat.mod_lt _ (by decide)) h.symm

theorem nl_not_mem_escChar (c : Char) : '\n' ∉ (escChar c).data := by
  unfold escChar
  split_ifs with h1 h2 h3 h4 h5 h6 h7 h8 h9
  · decide
  · decide
  · decide
  · decide
  · decide
  · decide
  · decide
  · exact nl_not_mem_u4 _
  · intro h
    rw [String.data_append] at h
    rcases List.mem_append.mp h with h | h
    · exact nl_not_mem_u4 _ h
    · exact nl_not_mem_u4 _ h
  · intro h
    have h' : '\n' ∈ [c] := h
    have hc : c = '\n' := (List.mem_singleton.mp h').symm
    subst hc
    exact h8 (Or.inl (by decide))

theorem nl_not_mem_escString (l : List Char) : '\n' ∉ (escString l).data := by
  induction l with
  | nil => decide
  | cons c rest ih =>
    intro h
    rw [escString, String.data_append] at h
    rcases List.mem_append.mp h with h | h
    · exact nl_not_mem_escChar c h
    · exact ih h

theorem pyJsonDumpsError_single_line (msg : String) :
    ((pyJsonDumpsError msg).data.contains '\n') = false := by
  have hm : '\n' ∉ (pyJsonDumpsError msg).data := by
    unfold pyJsonDumpsError
    intro h
    rw [String.data_append, String.data_append] at h
    rcases List.mem_append.mp h with h | h
    · rcases List.mem_append.mp h with h | h
      · exact absurd h (by decide)
      · exact nl_not_mem_escString _ h
    · exact absurd h (by decide)
  simp only [List.contains, List.elem_eq_mem, decide_eq_false_iff_not]
  exact hm

/-! ### Claims about the orchestrator -/

/-- Claim C1: every run of `analyze_repo` writes exactly one line to stdout —
the raw model response content when every stage succeeds, or the JSON error
envelope on any failure — never zero lines, never more than one, and never
both; moreover the error envelope contains no newline (it is a single line). -/
theorem analyze_repo_exactly_one_output (env : Env) (repo_url branch : String)
    (pre : Option String) :
    ((analyze_repo env repo_url branch pre).stdout =
      [match env.cloneExc with
       | some exc => errEnvelope ⟨"RuntimeError", "Git clone failed: " ++ exc⟩
       | none =>
         match env.apiResult (pipelinePrompt env repo_url branch pre) with
         | Except.ok content => content
         | Except.error e => errEnvelope e]) ∧
    ∀ msg : String, ((pyJsonDumpsError msg).data.contains '\n') = false := by
  constructor
  · cases hc : env.cloneExc with
    | some exc => simp [analyze_repo, tryBody, shallow_clone, hc]
    | none =>
      cases h : env.apiResult
          (build_prompt (collect_source_files (tmpDirOf env) env.entries) repo_url branch pre) with
      | error e => simp [analyze_repo, tryBody, shallow_clone, pipelinePrompt, hc, h]
      | ok content => simp [analyze_repo, tryBody, shallow_clone, pipelinePrompt, hc, h]
  · exact pyJsonDumpsError_single_line

/-- Claim C2: the scratch clone directory of a run does not exist once the run
completes, whether it succeeded or failed; when `shallow_clone` itself fails it
has already removed the directory at the moment it raises. -/
theorem analyze_repo_cleanup (env : Env) (repo_url branch : String) (pre : Option String) :
    (analyze_repo env repo_url branch pre).tmpExists = false ∧
    (shallow_clone env).2 = env.cloneExc.isNone := by
  constructor
  · cases hc : env.cloneExc with
    | some exc => simp [analyze_repo, tryBody, shallow_clone, hc]
    | none =>
      cases h : env.apiResult
          (build_prompt (collect_source_files (tmpDirOf env) env.entries) repo_url branch pre) with
      | error e => simp [analyze_repo, tryBody, shallow_clone, hc, h]
      | ok content => simp [analyze_repo, tryBody, shallow_clone, hc, h]
  · cases hc : env.cloneExc <;> simp [shallow_clone, hc]

/-- Claim C6: on any clone failure `shallow_clone` has removed the directory it
created and raises exactly one `RuntimeError` whose message carries the cause
text (no retry: the outcome is a function of the single clone attempt); on
success it returns the freshly created directory, and distinct uuids give
distinct directory names. -/
theorem shallow_clone_spec (env env2 : Env) (hcwd : env.cwd = env2.cwd)
    (huuid : env.uuidHex ≠ env2.uuidHex) :
    (shallow_clone env =
      (match env.cloneExc with
       | some exc => Except.error ⟨"RuntimeError", "Git clone failed: " ++ exc⟩
       | none => Except.ok (tmpDirOf env), env.cloneExc.isNone)) ∧
    tmpDirOf env ≠ tmpDirOf env2 := by
  constructor
  · cases hc : env.cloneExc <;> simp [shallow_clone, hc]
  · intro heq
    unfold tmpDirOf at heq
    rw [hcwd] at heq
    have h2 := List.append_cancel_left heq
    have h3 : "cerebra-" ++ env.uuidHex = "cerebra-" ++ env2.uuidHex := by
      simpa using h2
    have h4 := congrArg String.data h3
    rw [String.data_append, String.data_append] at h4
    exact huuid (String.ext (List.append_cancel_left h4))

theorem shallow_clone_spec_witness :
    (⟨["w"], "aa", some "boom", [], fun _ => Except.ok "c"⟩ : Env).cwd =
      (⟨["w"], "bb", none, [], fun _ => Except.ok "c"⟩ : Env).cwd ∧
    (⟨["w"], "aa", some "boom", [], fun _ => Except.ok "c"⟩ : Env).uuidHex ≠
      (⟨["w"], "bb", none, [], fun _ => Except.ok "c"⟩ : Env).uuidHex ∧
    ((shallow_clone ⟨["w"], "aa", some "boom", [], fun _ => Except.ok "c"⟩ =
      (Except.error ⟨"RuntimeError", "Git clone failed: boom"⟩, false)) ∧
      tmpDirOf ⟨["w"], "aa", some "boom", [], fun _ => Except.ok "c"⟩ ≠
        tmpDirOf ⟨["w"], "bb", none, [], fun _ => Except.ok "c"⟩) :=
  ⟨rfl, by decide,
    shallow_clone_spec ⟨["w"], "aa", some "boom", [], fun _ => Except.ok "c"⟩
      ⟨["w"], "bb", none, [], fun _ => Except.ok "c"⟩ rfl (by decide)⟩

/-- Claim C7: when the clone stage fails, the completion endpoint is never
called, and the run ends with the clone-classified error envelope on stdout. -/
theorem clone_failure_no_completion_call (env : Env) (repo_url branch : String)
    (pre : Option String) (exc : String) (hclone : env.cloneExc = some exc) :
    (analyze_repo env repo_url branch pre).apiCalledWith = none ∧
    (analyze_repo env repo_url branch pre).stdout =
      [errEnvelope ⟨"RuntimeError", "Git clone failed: " ++ exc⟩] := by
  constructor <;> simp [analyze_repo, tryBody, shallow_clone, hclone]

theorem clone_failure_no_completion_call_witness :
    (⟨["w"], "h", some "boom", [], fun _ => Except.ok "c"⟩ : Env).cloneExc = some "boom" ∧
    ((analyze_repo ⟨["w"], "h", some "boom", [], fun _ => Except.ok "c"⟩ "U" "B"
        none).apiCalledWith = none ∧
      (analyze_repo ⟨["w"], "h", some "boom", [], fun _ => Except.ok "c"⟩ "U" "B" none).stdout =
        [errEnvelope ⟨"RuntimeError", "Git clone failed: boom"⟩]) :=
  ⟨rfl, clone_failure_no_completion_call ⟨["w"], "h", some "boom", [], fun _ => Except.ok "c"⟩
    "U" "B" none "boom" rfl⟩

/-- Claim C9: an empty candidate list still yields a valid prompt — the header
(with the optional prefix) followed by an empty body — and the pipeline still
issues the completion call with exactly that prompt. -/
theorem empty_candidates_still_call (env : Env) (repo_url branch : String)
    (pre : Option String) (hclone : env.cloneExc = none)
    (hfiles : collect_source_files (tmpDirOf env) env.entries = []) :
    promptBody [] = "" ∧
    build_prompt [] repo_url branch pre = headerOf pre repo_url branch ++ "\n" ∧
    (analyze_repo env repo_url branch pre).apiCalledWith =
      some (build_prompt [] repo_url branch pre) := by
  refine ⟨rfl, ?_, ?_⟩
  · show headerOf pre repo_url branch ++ "\n" ++ promptBody [] = _
    rw [show promptBody [] = "" from rfl]
    exact String.append_empty _
  · cases h : env.apiResult (build_prompt [] repo_url branch pre) with
    | error e => simp [analyze_repo, tryBody, shallow_clone, hclone, hfiles, h]
    | ok content => simp [analyze_repo, tryBody, shallow_clone, hclone, hfiles, h]

theorem empty_candidates_still_call_witness :
    (⟨["w"], "h", none, [], fun _ => Except.ok "c"⟩ : Env).cloneExc = none ∧
    collect_source_files (tmpDirOf ⟨["w"], "h", none, [], fun _ => Except.ok "c"⟩) [] = [] ∧
    (promptBody [] = "" ∧
      build_prompt [] "U" "B" none = headerOf none "U" "B" ++ "\n" ∧
      (analyze_repo ⟨["w"], "h", none, [], fun _ => Except.ok "c"⟩ "U" "B" none).apiCalledWith =
        some (build_prompt [] "U" "B" none)) :=
  ⟨rfl, rfl,
    empty_candidates_still_call ⟨["w"], "h", none, [], fun _ => Except.ok "c"⟩ "U" "B" none rfl rfl⟩

/-! ### Claim about the section label of build_prompt -/

theorem relGrandparent_eq_drop (parts : List String) :
    relGrandparent parts = parts.drop (parts.length - 2) := by
  unfold relGrandparent
  by_cases h : 2 ≤ parts.length
  · rw [if_pos h]
  · rw [if_neg h]
    have h0 : parts.length - 2 = 0 := by omega
    rw [h0, List.drop_zero]

/-- Claim C4 counterexample: for a clone whose traversal yields the file
`x/y/a.py` under the clone root, the pipeline's labeled section shows
`y/a.py`, while the path relative to the clone root is `x/y/a.py`. -/
theorem build_prompt_label_counterexample :
    promptBody (collect_source_files ["h", "u", "temp_clones", "cerebra-abc"]
        [⟨["x", "y", "a.py"], true, some "code"⟩]) =
      "\n--- y/a.py ---\ncode\n" ∧
    renderPath (specRelToRoot ["h", "u", "temp_clones", "cerebra-abc"]
      ["h", "u", "temp_clones", "cerebra-abc", "x", "y", "a.py"]) = "x/y/a.py" ∧
    ("y/a.py" : String) ≠ "x/y/a.py" :=
  ⟨rfl, rfl, by decide⟩

/-- Claim C4 amended: the labeled section of an included file shows the last
two segments of the file's path — its path relative to its grandparent
directory, which equals the clone-root-relative path only for files exactly
two levels below the clone root — together with at most the first 2000
characters of its content (head truncation). -/
theorem build_prompt_label_and_truncation (parts : List String) (c : String)
    (repo_url branch : String)
    (hfit : (filePart ⟨parts, some c⟩ c).length ≤ max_chars) :
    build_prompt [⟨parts, some c⟩] repo_url branch none =
      introText repo_url branch ++ "\n" ++
        ("\n--- " ++ renderPath (parts.drop (parts.length - 2)) ++ " ---\n" ++
          String.mk (c.data.take 2000) ++ "\n") := by
  have hnot : ¬ (max_chars < ("" : String).length + (filePart ⟨parts, some c⟩ c).length) := by
    rw [String.length_empty]
    omega
  unfold build_prompt promptBody headerOf
  congr 1
  simp only [bodyLoop, hnot, if_false, if_neg, not_false_iff]
  rw [String.empty_append]
  unfold filePart snippetOf
  rw [relGrandparent_eq_drop]

theorem build_prompt_label_and_truncation_witness :
    (filePart ⟨["h", "u", "temp_clones", "cerebra-abc", "x", "y", "a.py"], some "code"⟩
        "code").length ≤ max_chars ∧
    build_prompt [⟨["h", "u", "temp_clones", "cerebra-abc", "x", "y", "a.py"], some "code"⟩]
        "U" "B" none =
      introText "U" "B" ++ "\n" ++
        ("\n--- " ++ renderPath (["h", "u", "temp_clones", "cerebra-abc", "x", "y",
            "a.py"].drop (["h", "u", "temp_clones", "cerebra-abc", "x", "y",
            "a.py"].length - 2)) ++ " ---\n" ++
          String.mk (("code" : String).data.take 2000) ++ "\n") :=
  ⟨by decide,
    build_prompt_label_and_truncation ["h", "u", "temp_clones", "cerebra-abc", "x", "y", "a.py"]
      "code" "U" "B" (by decide)⟩
